import Mathlib

/-!
Verification development for the snap-educational-mcp repository.

The Python source is shallowly embedded in Lean: pure functions become Lean
functions, stateful code becomes explicit state passing, machine floats used
only as similarity scores become rationals, and fallible code returns
`Except`/`Option`.  The embedded modules are:

* `mcp_server/tools/block_generator.py` (block generation pipeline, LRU
  cache, generative-engine retry loop, rule-based pattern path),
* `mcp_server/parsers/validators.py` plus `validate_snap_json` (the latter
  is imported by `block_generator.py` but absent from the source tree; it is
  modelled from the specification, see below),
* `mcp_server/main.py` (session-token issuing and validation),
* `mcp_server/tools/snap_communicator.py` (WebSocket bridge handshake,
  message dispatch and pending-response bookkeeping).
-/

namespace Snap

/-! ## Python-style string helpers

The Python code uses `str.lower/upper/strip/split/replace/in`.  The Lean
built-in `String` functions are defined through byte-position loops that do
not reduce definitionally, so the same operations are defined here directly
over the underlying character list.  `Char.toUpper`/`Char.toLower` mirror
the CPython behaviour on the ASCII range. -/

def pyUpper (s : String) : String := ⟨s.data.map Char.toUpper⟩

def pyLower (s : String) : String := ⟨s.data.map Char.toLower⟩

def pyStrip (s : String) : String :=
  ⟨((s.data.dropWhile Char.isWhitespace).reverse.dropWhile Char.isWhitespace).reverse⟩

def pyTake (n : Nat) (s : String) : String := ⟨s.data.take n⟩

/-- `str.split(sep)` for a one-character separator. -/
def splitChar (sep : Char) : List Char → List (List Char)
  | [] => [[]]
  | c :: t =>
    let r := splitChar sep t
    if c = sep then [] :: r
    else
      match r with
      | [] => [[c]]
      | h :: t2 => (c :: h) :: t2

/-- `s.split(sep)[-1]` : the last component of a split (split is never empty). -/
def lastSplitPart (sep : Char) (s : String) : String :=
  ⟨(splitChar sep s.data).getLastD []⟩

/-- Does `p` occur as a prefix of `l`? -/
def hasPre : List Char → List Char → Bool
  | [], _ => true
  | _ :: _, [] => false
  | a :: as, b :: bs => a = b && hasPre as bs

/-- Python `sub in s` on character lists. -/
def hasSub (sub : List Char) : List Char → Bool
  | [] => sub.isEmpty
  | c :: t => hasPre sub (c :: t) || hasSub sub t

def pyContains (s sub : String) : Bool := hasSub sub.data s.data

/-- Fuel-bounded engine of Python `str.replace` (leftmost, non-overlapping).
The fuel is the length of the subject string, which always suffices. -/
def replaceFuel (pat rep : List Char) : Nat → List Char → List Char
  | 0, l => l
  | _ + 1, [] => []
  | f + 1, c :: t =>
    if pat.isEmpty = false ∧ hasPre pat (c :: t) then
      rep ++ replaceFuel pat rep f ((c :: t).drop pat.length)
    else
      c :: replaceFuel pat rep f t

/-- Python `s.replace(pat, rep)` for a non-empty pattern (the only use in the
source replaces the literal `"key"`). -/
def pyReplace (s pat rep : String) : String :=
  ⟨replaceFuel pat.data rep.data s.data.length s.data⟩

/-- A single quote character, used when rebuilding Python message strings. -/
def sq : String := String.singleton (Char.ofNat 39)

/-! ## Data model

`SnapBlock`, `BlockSequence` (block_generator.py dataclasses) and the typed
form of the JSON wire shape for scripts and programs (spec section 6).
Input maps (`Dict[str, Any]`) are embedded as association lists of a small
JSON-like value type; floats appearing as block inputs become rationals. -/

inductive JVal where
  | s : String → JVal
  | n : ℚ → JVal
  | b : Bool → JVal
deriving DecidableEq

structure SnapBlock where
  block_id : String
  opcode : String
  category : String
  inputs : List (String × JVal)
  is_hat_block : Bool := false
  next : Option String := none
deriving DecidableEq

structure BlockSequence where
  blocks : List SnapBlock := []
  metadata : List (String × JVal) := []
deriving DecidableEq

structure ScriptPos where
  x : Int
  y : Int
deriving DecidableEq

structure Script where
  script_id : String
  position : ScriptPos
  blocks : List SnapBlock
deriving DecidableEq

/-- Payload of a generated program.  `error`/`user_request` are the optional
keys set only by the error-fallback constructor. -/
structure Payload where
  target_sprite : String
  scripts : List Script
  error : Option String := none
  user_request : Option String := none
deriving DecidableEq

structure Program where
  command : String
  payload : Payload
deriving DecidableEq

/-- ParsedIntent (intent_parser.py dataclass). -/
structure ParsedIntent where
  action : String
  trigger : Option String := none
  subject : String := "sprite"
  parameters : List (String × JVal) := []
  modifiers : List String := []
  confidence : ℚ := 1
  raw_text : String := ""
deriving DecidableEq

/-! ## Association-list helpers (Python dict on string keys) -/

/-- First value bound to `k` (Python dict lookup; keys are unique in an
actual dict, so first = only). -/
def assocFind {α : Type} (l : List (String × α)) (k : String) : Option α :=
  match l with
  | [] => none
  | (k2, v) :: t => if k2 = k then some v else assocFind t k

def assocHas {α : Type} (l : List (String × α)) (k : String) : Bool :=
  (assocFind l k).isSome

/-- Replace the value at an existing key, keeping its position
(Python `d[k] = v` when `k` is already present). -/
def assocSet {α : Type} (l : List (String × α)) (k : String) (v : α) :
    List (String × α) :=
  match l with
  | [] => []
  | (k2, v2) :: t => if k2 = k then (k2, v) :: t else (k2, v2) :: assocSet t k v

/-! ## Session authority (mcp_server/main.py)

Sessions are persisted as a JSON object mapping session_id to a record; the
embedding passes the loaded store explicitly (the Python code reloads it
from disk on every call).  `datetime` values become natural-number epoch
seconds; `timedelta(minutes=30)` is 1800 seconds.  The HMAC signature is
keyed crypto over fields the claims never inspect and is not modelled. -/

structure SessionRec where
  token : String
  created_at : Nat
  expires_at : Nat
  connected : Bool := false
deriving DecidableEq

/-- The session store: `active_sessions` as read back by `load_sessions`. -/
abbrev Sessions : Type := List (String × SessionRec)

/-- Token record returned by `generate_secure_token` (`token_data`). -/
structure TokenData where
  token_id : String
  session_id : String
  issued_at : Nat
  expires_at : Nat
  permissions : List String
deriving DecidableEq

/-- generate_secure_token (main.py): builds the token record with
`expires_at = issued_at + 30 minutes` and stores the session.  The random
`uuid4` is passed in as `token_uuid`. -/
def generate_secure_token (sessions : Sessions) (session_id token_uuid : String)
    (issued_at : Nat) : TokenData × Sessions :=
  let token_id := "snap-mcp-" ++ token_uuid
  let expires_at := issued_at + 1800
  let tok : TokenData :=
    { token_id := token_id
      session_id := session_id
      issued_at := issued_at
      expires_at := expires_at
      permissions :=
        ["create_blocks", "read_project", "execute_script", "inspect_state",
         "create_custom_block"] }
  (tok, (session_id,
    { token := token_id
      created_at := issued_at
      expires_at := expires_at
      connected := false }) :: sessions)

/-- The display form of a stored full token:
`full_token.split("-")[-1][:8].upper()`. -/
def displayOf (full_token : String) : String :=
  pyUpper (pyTake 8 (lastSplitPart (Char.ofNat 45) full_token))

/-- Does a stored record match an entered display token?  (The code skips
records whose `token` field is falsy, and upper-cases both sides.) -/
def displayMatch (rec : SessionRec) (display_token : String) : Bool :=
  rec.token ≠ "" && displayOf rec.token = pyUpper display_token

/-- find_session_by_display_token (main.py): first session whose token
display form matches the entered code. -/
def find_session_by_display_token (sessions : Sessions) (display_token : String) :
    Option String :=
  match sessions with
  | [] => none
  | (sid, rec) :: t =>
    if displayMatch rec display_token then some sid
    else find_session_by_display_token t display_token

/-- validate_token (main.py): `(session_id | none, error_message | none)`.
`now` is `datetime.utcnow()`.  The stored record always carries an
`expires_at` in this embedding (the missing-field guard never fires). -/
def validate_token (sessions : Sessions) (now : Nat) (display_token : String) :
    Option String × Option String :=
  match find_session_by_display_token sessions display_token with
  | none => (none, some "Session not found for this token.")
  | some session_id =>
    match assocFind sessions session_id with
    | none =>
      (none, some "Session data disappeared after being found. Please try again.")
    | some rec =>
      if rec.expires_at < now then (none, some "Token has expired.")
      else (some session_id, none)

/-! ## Bridge protocol server (mcp_server/tools/snap_communicator.py)

The WebSocket handler is embedded as decision functions over the first
received frame (handshake) and over the per-call outcome of a dispatched
command.  Connection registries and the pending-response table are
explicit state. -/

/-- The first frame received on a new connection: text that fails
`json.loads`, valid JSON whose top level is not an object (array, string,
number or null — `connect_data.get` then raises AttributeError), or a
parsed object with its `type` and `token` fields (`None` when absent;
string-typed per the wire shape of spec section 6). -/
inductive FirstFrame where
  | malformed : FirstFrame
  | nonObject : FirstFrame
  | msg : Option String → Option String → FirstFrame
deriving DecidableEq

/-- Close code + reason, or an accepted session. -/
inductive HandshakeOutcome where
  | closed : Nat → String → HandshakeOutcome
  | accepted : String → HandshakeOutcome
deriving DecidableEq

/-- Result of the handle_connection handshake phase: the outcome, the updated
connection registry, and whether the command-processing message loop was
entered at all. -/
structure HandshakeResult where
  outcome : HandshakeOutcome
  connections : List String
  enteredLoop : Bool
deriving DecidableEq

/-- handle_connection (snap_communicator.py), handshake phase.  The token
validator is the injected `validate_token`-style function returning
`(session_id | none, error | none)`.  Close code 1002 is the protocol
error code and 1008 the policy/auth error code, exactly as in the source;
a first frame of valid non-object JSON raises AttributeError at
`connect_data.get`, lands in the catch-all `except Exception` handler and
is closed with code 1011 "Internal Server Error". -/
def handle_connection (validator : String → Option String × Option String)
    (connections : List String) : FirstFrame → HandshakeResult
  | .malformed =>
    ⟨.closed 1002 "Protocol Error: Invalid JSON", connections, false⟩
  | .nonObject =>
    ⟨.closed 1011 "Internal Server Error", connections, false⟩
  | .msg mtype mtoken =>
    if mtype ≠ some "connect" then
      ⟨.closed 1002 ("Protocol Error: Expected " ++ sq ++ "connect" ++ sq ++ " message."),
       connections, false⟩
    else
      match mtoken with
      | none => ⟨.closed 1002 "Protocol Error: Missing token.", connections, false⟩
      | some tk =>
        if tk = "" then
          ⟨.closed 1002 "Protocol Error: Missing token.", connections, false⟩
        else
          match validator tk with
          | (some session_id, _) =>
            ⟨.accepted session_id, session_id :: connections, true⟩
          | (none, err) =>
            ⟨.closed 1008 ("Invalid Token: " ++ err.getD ""), connections, false⟩

/-- Communicator state: registered connections and the pending-response
table (`message_id -> future`; the embedding records the outstanding keys,
with dict semantics of at most one entry per key). -/
structure CommState where
  connections : List String
  pending : List String
  total_commands : Nat := 0
deriving DecidableEq

/-- `self.pending_responses[message_id] = future` (dict insert/overwrite). -/
def pendingInsert (mid : String) (pending : List String) : List String :=
  mid :: pending.filter (fun m => m ≠ mid)

/-- `del self.pending_responses[message_id]`. -/
def pendingRemove (mid : String) (pending : List String) : List String :=
  pending.filter (fun m => m ≠ mid)

/-- Inbound frames seen by handle_message.  A `response` frame carries the
correlation id (`message_id`) and its payload data. -/
inductive InFrame where
  | response : Option String → JVal → InFrame
  | event : Option String → InFrame
  | ping : InFrame
  | badJson : InFrame
  | otherType : InFrame
deriving DecidableEq

/-- handle_message (snap_communicator.py): on a `response` whose
`message_id` is pending, the associated future is fulfilled with the data
and the entry is deleted; everything else leaves the table unchanged
(`event` is logged, `ping` answered with `pong`).  The second component is
the fulfilled (correlation id, data) pair, if any. -/
def handle_message (st : CommState) : InFrame → CommState × Option (String × JVal)
  | .response mid d =>
    match mid with
    | some i =>
      if i ∈ st.pending then
        ({ st with pending := pendingRemove i st.pending }, some (i, d))
      else (st, none)
    | none => (st, none)
  | _ => (st, none)

/-- How one dispatched command plays out at its suspension points:
the matching `response` frame arrives in time, the wait times out, or the
socket write itself raises (e.g. the peer closed the connection). -/
inductive SendOutcome where
  | response : JVal → SendOutcome
  | timedOut : SendOutcome
  | sendRaise : SendOutcome
deriving DecidableEq

inductive SendError where
  | connectionError : SendError
  | timeoutError : SendError
  | sendError : SendError
deriving DecidableEq

/-- send_command (snap_communicator.py).  Mirrors the control flow of the
source: unknown session raises ConnectionError before any allocation; the
correlation id `mid` (a fresh `uuid4` hex in the source) is registered in
the pending table; then the command is written to the socket (which can
raise, leaving the entry behind — there is no try/finally around it); a
matching response fulfils and removes the entry via handle_message; a
timeout deletes the entry and raises TimeoutError. -/
def send_command (st : CommState) (session_id mid : String)
    (outcome : SendOutcome) : Except SendError JVal × CommState :=
  if session_id ∈ st.connections then
    let st1 : CommState := { st with pending := pendingInsert mid st.pending }
    match outcome with
    | .sendRaise => (.error .sendError, st1)
    | .response d =>
      let st2 := { st1 with total_commands := st1.total_commands + 1 }
      match handle_message st2 (.response (some mid) d) with
      | (st3, some (_, data)) => (.ok data, st3)
      | (st3, none) =>
        (.error .timeoutError, { st3 with pending := pendingRemove mid st3.pending })
    | .timedOut =>
      let st2 := { st1 with total_commands := st1.total_commands + 1 }
      (.error .timeoutError, { st2 with pending := pendingRemove mid st2.pending })
  else (.error .connectionError, st)

/-! ## Validator

`validate_snap_json` is imported by `block_generator.py` from
`..parsers.validators` but is not present in the source tree. -/

/-- The authoritative opcode table of the knowledge base, flattened to
opcode → category (block_generator reads `the blocks table of blocks_db` as
category → opcode → definition; `_get_all_opcodes` takes the key set). -/
abbrev KnowledgeDb : Type := List (String × String)

/-- The fixed event-trigger (hat) opcode set.  Modelled from the spec:
the validator is absent from the source; the members are the event
opcodes the repository itself emits or lists in its prompt examples. -/
def hatTriggerOpcodes : List String :=
  ["whenGreenFlag", "whenClicked", "whenKeyPressed",
   "receiveGo", "receiveKey", "receiveMessage"]

/-- Executable no-duplicates check on a list of strings. -/
def nodupStr : List String → Bool
  | [] => true
  | x :: t => (!t.contains x) && nodupStr t

/-- Gate 4: position-0 block is a hat block with an event-trigger opcode
and no later block is a hat block. -/
def checkHatGate : List SnapBlock → Bool
  | [] => false
  | head :: rest =>
    head.is_hat_block && hatTriggerOpcodes.contains head.opcode &&
      rest.all (fun b => !b.is_hat_block)

/-- Gate 5: opcode allowlist membership and category agreement with the
knowledge base. -/
def checkOpcodes (allowed : List String) (db : KnowledgeDb)
    (blocks : List SnapBlock) : Bool :=
  blocks.all (fun b =>
    allowed.contains b.opcode && assocFind db b.opcode == some b.category)

/-- Gate 6: every `next` reference resolves to a block_id in the same
script. -/
def checkNextResolve (blocks : List SnapBlock) : Bool :=
  blocks.all (fun b =>
    match b.next with
    | none => true
    | some nid => (blocks.map (fun b2 => b2.block_id)).contains nid)

/-- The ids visited by walking `next` from a block id, with fuel (the block
count bounds the number of distinct blocks any walk can visit). -/
def chainFrom (blocks : List SnapBlock) : Nat → Option String → List String
  | 0, _ => []
  | _ + 1, none => []
  | f + 1, some bid =>
    match blocks.find? (fun b => b.block_id == bid) with
    | none => []
    | some b => bid :: chainFrom blocks f b.next

/-- Gate 7: every block is reachable from the head block via `next`. -/
def checkReachability : List SnapBlock → Bool
  | [] => false
  | head :: rest =>
    let visited := chainFrom (head :: rest) (head :: rest).length (some head.block_id)
    (head :: rest).all (fun b => visited.contains b.block_id)

/-- Modelled from the spec: `validate_snap_json(generated_json,
allowed_opcodes, blocks_db)` is imported from `parsers.validators` but that
function is missing from the source tree; this follows the validator
pipeline of gates (structural shape, duplicate script ids, empty scripts,
duplicate block ids, hat-block gate, opcode allowlist and category
agreement, `next` resolution, reachability), short-circuiting with a
diagnostic.  Gate 1 (field/type shape) is discharged by the typed
embedding.  Error-marked fallback programs are never routed through this
function by the callers in `block_generator.py`. -/
def validate_snap_json (p : Program) (allowed : List String) (db : KnowledgeDb) :
    Bool × Option String :=
  if !nodupStr (p.payload.scripts.map (fun s => s.script_id)) then
    (false, some "scripts: duplicate script_id")
  else if p.payload.scripts.any (fun s => s.blocks.isEmpty) then
    (false, some "scripts: empty block list")
  else if p.payload.scripts.any (fun s => !nodupStr (s.blocks.map (fun b => b.block_id))) then
    (false, some "blocks: duplicate block_id")
  else if p.payload.scripts.any (fun s => !checkHatGate s.blocks) then
    (false, some "blocks: hat block constraint violated")
  else if p.payload.scripts.any (fun s => !checkOpcodes allowed db s.blocks) then
    (false, some "blocks: unknown opcode or category mismatch")
  else if p.payload.scripts.any (fun s => !checkNextResolve s.blocks) then
    (false, some "blocks: dangling next reference")
  else if p.payload.scripts.any (fun s => !checkReachability s.blocks) then
    (false, some "blocks: unreachable blocks")
  else (true, none)

/-! ## Error fallback and generative engine (block_generator.py) -/

/-- _create_error_fallback: the synthetic error program (one hat block plus
one say-error block) with the error recorded in the payload. -/
def create_error_fallback (error user_description : String) : Program :=
  { command := "create_blocks"
    payload :=
      { target_sprite := "Sprite"
        scripts :=
          [{ script_id := "error_001"
             position := ⟨50, 50⟩
             blocks :=
               [{ block_id := "error_block_000"
                  opcode := "whenGreenFlag"
                  category := "control"
                  inputs := []
                  is_hat_block := true
                  next := some "error_block_001" },
                { block_id := "error_block_001"
                  opcode := "doSay"
                  category := "looks"
                  inputs :=
                    [("message", .s ("Generation failed: " ++ pyTake 50 error ++
                      "... | Request: " ++ sq ++ pyTake 30 user_description ++ sq))]
                  is_hat_block := false
                  next := none }] }]
        error := some error
        user_request := some user_description } }

/-- What one retry attempt of the generative backend produced: text that
failed JSON extraction/parsing, some other raised exception, or a parsed
candidate program (which must still pass the validator). -/
inductive AttemptOutcome where
  | parseError : AttemptOutcome
  | otherError : AttemptOutcome
  | parsed : Program → AttemptOutcome
deriving DecidableEq

/-- The retry loop of _call_generative_engine.  Each iteration counts one
API call (the counter is bumped before the backend call in the source),
then either accepts a parsed program that validates or moves on. -/
def engineLoop (allowed : List String) (db : KnowledgeDb)
    (user_description : String) : List AttemptOutcome → Nat → Program × Nat
  | [], calls => (create_error_fallback "All validation retries failed" user_description, calls)
  | a :: rest, calls =>
    match a with
    | .parsed p =>
      if (validate_snap_json p allowed db).1 then (p, calls + 1)
      else engineLoop allowed db user_description rest (calls + 1)
    | _ => engineLoop allowed db user_description rest (calls + 1)

/-- _call_generative_engine: quota gate, then the bounded retry loop
(`attempts` holds the backend behaviour for each of the
`range(max_retries)` iterations), always returning a program.  The second
component is the updated `_api_call_count`. -/
def call_generative_engine (api_call_count daily_api_limit : Nat)
    (allowed : List String) (db : KnowledgeDb) (attempts : List AttemptOutcome)
    (user_description : String) : Program × Nat :=
  if daily_api_limit ≤ api_call_count then
    (create_error_fallback "API limit exceeded" user_description, api_call_count)
  else engineLoop allowed db user_description attempts api_call_count

/-- Does this attempt fail to produce a program that parses and validates? -/
def attemptFails (allowed : List String) (db : KnowledgeDb) :
    AttemptOutcome → Bool
  | .parsed p => !(validate_snap_json p allowed db).1
  | _ => true

/-! ## Pattern matcher (block_generator.py rule-based path) -/

/-- One block template of a pattern definition in patterns.json. -/
structure BlockDef where
  opcode : String
  category : String
  inputs : List (String × JVal) := []
deriving DecidableEq

/-- A named pattern: trigger phrases live in the alias map; `name` is the
optional `"name"` key used for metadata. -/
structure PatternData where
  name : Option String := none
  blocks : List BlockDef := []
deriving DecidableEq

/-- The fuzzy-fallback loop of _find_matching_pattern: scan the alias map,
keeping the best pattern name so far and its score; an entry takes over
when its score strictly beats the running best and reaches the 0.6
threshold.  `ratio` stands for the Python stdlib difflib `SequenceMatcher(None, a, b).ratio()`, embedded as an uninterpreted rational-valued scoring
function. -/
def fuzzyLoop (ratio : String → String → ℚ) (action_lower : String) :
    List (String × String) → Option String → ℚ → Option String
  | [], best, _ => best
  | (trigger, pname) :: t, best, best_score =>
    let score := ratio action_lower trigger
    if best_score < score ∧ (3 : ℚ) / 5 ≤ score then
      fuzzyLoop ratio action_lower t (some pname) score
    else fuzzyLoop ratio action_lower t best best_score

/-- _find_matching_pattern: exact trigger-map lookup, then the fuzzy
fallback.  `aliases` is `trigger_aliases` (trigger → pattern name, in
insertion order) and `patternsDb` the `patterns` table it was built from. -/
def find_matching_pattern (ratio : String → String → ℚ)
    (aliases : List (String × String)) (patternsDb : List (String × PatternData))
    (action : String) : Option PatternData :=
  let action_lower := pyStrip (pyLower action)
  match assocFind aliases action_lower with
  | some pname => assocFind patternsDb pname
  | none =>
    match fuzzyLoop ratio action_lower aliases none 0 with
    | some pname => assocFind patternsDb pname
    | none => none

/-- The description the specification gives of the fuzzy fallback, from its
words: the first-encountered trigger of maximal similarity score is chosen,
provided its score is at least 0.6; otherwise no pattern.  Returns the
chosen pattern name with its score. -/
def specFuzzyChoice (ratio : String → String → ℚ) (action_lower : String) :
    List (String × String) → Option (String × ℚ)
  | [] => none
  | (trigger, pname) :: t =>
    let score := ratio action_lower trigger
    match specFuzzyChoice ratio action_lower t with
    | none => if (3 : ℚ) / 5 ≤ score then some (pname, score) else none
    | some (q, s2) =>
      if (3 : ℚ) / 5 ≤ score ∧ s2 ≤ score then some (pname, score)
      else some (q, s2)

/-! ## Rule-based block construction (block_generator.py) -/

/-- Python truthiness of the `intent.trigger` field (`None` and the empty
string are falsy). -/
def triggerTruthy : Option String → Bool
  | none => false
  | some s => s ≠ ""

/-- _create_trigger_block: hat block from a trigger string.  The block id is
hard-coded `block_000` and its `next` hard-coded `block_001`. -/
def create_trigger_block (trigger : String) : SnapBlock :=
  let trigger_lower := pyLower trigger
  if pyContains trigger_lower "flag" || trigger_lower = "start" then
    { block_id := "block_000", opcode := "whenGreenFlag", category := "control",
      inputs := [], is_hat_block := true, next := some "block_001" }
  else if pyContains trigger_lower "click" then
    { block_id := "block_000", opcode := "whenClicked", category := "control",
      inputs := [], is_hat_block := true, next := some "block_001" }
  else if pyContains trigger_lower "key" || trigger_lower.data.length = 1 then
    let key0 := pyStrip (pyReplace trigger_lower "key" "")
    let key := if key0 = "" then "space" else key0
    { block_id := "block_000", opcode := "whenKeyPressed", category := "control",
      inputs := [("KEY_OPTION", .s key)], is_hat_block := true,
      next := some "block_001" }
  else
    { block_id := "block_000", opcode := "whenGreenFlag", category := "control",
      inputs := [], is_hat_block := true, next := some "block_001" }

/-- Python `f"{n:03d}"`. -/
def pad3 (n : Nat) : String :=
  if n < 10 then "00" ++ toString n
  else if n < 100 then "0" ++ toString n
  else toString n

def blockIdFor (n : Nat) : String := "block_" ++ pad3 n

/-- Intent parameters override template inputs by upper-cased key, only
where the key already exists (`if param_key in block.inputs`). -/
def overrideInputs (inputs : List (String × JVal))
    (params : List (String × JVal)) : List (String × JVal) :=
  params.foldl
    (fun acc kv =>
      if assocHas acc (pyUpper kv.1) then assocSet acc (pyUpper kv.1) kv.2
      else acc)
    inputs

/-- _create_from_pattern: optional trigger hat block, then the template
blocks of the pattern.  Ids and `next` links reproduce the source exactly: at
template index `i` the running list already holds `off + i` blocks (where
`off` is 1 when a trigger block was prepended), and the source computes
`block_id = f"block_{len(blocks)+1:03d}"` and
`next = f"block_{len(blocks)+2:03d}"` for all but the last template
block. -/
def create_from_pattern (pattern : PatternData) (intent : ParsedIntent) :
    BlockSequence :=
  let hasTrig := triggerTruthy intent.trigger
  let triggerBlocks : List SnapBlock :=
    if hasTrig then [create_trigger_block (intent.trigger.getD "")] else []
  let off := triggerBlocks.length
  let n := pattern.blocks.length
  let pblocks := pattern.blocks.mapIdx (fun i bd =>
    { block_id := blockIdFor (off + i + 1)
      opcode := bd.opcode
      category := bd.category
      inputs := overrideInputs bd.inputs intent.parameters
      is_hat_block := decide (i = 0) && !hasTrig
      next := if i < n - 1 then some (blockIdFor (off + i + 2)) else none })
  { blocks := triggerBlocks ++ pblocks
    metadata := [("pattern", .s (pattern.name.getD "custom"))] }

/-- format_for_snap: wrap a block sequence as the single-script wire
program. -/
def format_for_snap (bs : BlockSequence) (target_sprite : String) : Program :=
  { command := "create_blocks"
    payload :=
      { target_sprite := target_sprite
        scripts :=
          [{ script_id := "script_001"
             position := ⟨50, 50⟩
             blocks := bs.blocks }]
        error := none
        user_request := none } }

/-- The Script linkage invariant of the spec: every `next` reference
resolves inside the script, and the blocks reachable from the head block
via `next` cover the whole block set. -/
def scriptLinkageOk (s : Script) : Bool :=
  checkNextResolve s.blocks && checkReachability s.blocks

/-! ## Orchestrator and result cache (block_generator.py) -/

/-- Mutable state of SnapBlockGenerator relevant to the pipeline: the LRU
cache (`OrderedDict`, embedded as an association list whose last entry is
the most recently used), cost counters and metrics. -/
structure GenState where
  cache : List (String × Program) := []
  cache_max_size : Nat := 100
  api_call_count : Nat := 0
  daily_api_limit : Nat := 1000
  rule_based_hits : Nat := 0
  generative_hits : Nat := 0
  cache_hits : Nat := 0
  failures : Nat := 0
deriving DecidableEq

/-- Static collaborators of the generator: the similarity scorer, the
trigger alias map, the pattern table, and the opcode knowledge base. -/
structure GenEnv where
  ratio : String → String → ℚ
  aliases : List (String × String)
  patternsDb : List (String × PatternData)
  allowed : List String
  db : KnowledgeDb

/-- _get_cache_key hashes `user_description.lower().strip()` with md5; the
hash is injective on the normalized texts, so the key is embedded as the
normalized text itself. -/
def cacheKey (user_description : String) : String :=
  pyStrip (pyLower user_description)

/-- `OrderedDict.move_to_end(key)`: the entry moves to the most
recently used end. -/
def moveToEnd (key : String) (cache : List (String × Program)) :
    List (String × Program) :=
  match assocFind cache key with
  | some v => (cache.filter (fun e => e.1 ≠ key)) ++ [(key, v)]
  | none => cache

/-- _check_cache: on a hit the entry is promoted to most recently used. -/
def check_cache (st : GenState) (user_description : String) :
    Option Program × GenState :=
  let key := cacheKey user_description
  match assocFind st.cache key with
  | some p => (some p, { st with cache := moveToEnd key st.cache })
  | none => (none, st)

/-- _store_cache: an existing key is promoted; a fresh key evicts the least
recently used entry at capacity and is appended at the most recently used
end. -/
def store_cache (st : GenState) (user_description : String) (result : Program) :
    GenState :=
  let key := cacheKey user_description
  if assocHas st.cache key then { st with cache := moveToEnd key st.cache }
  else
    let c :=
      if st.cache_max_size ≤ st.cache.length then st.cache.drop 1 else st.cache
    { st with cache := c ++ [(key, result)] }

/-- Python truthiness of `payload.get("error")` (absent or empty string is
falsy, so such programs are cached). -/
def errorFalsy : Option String → Bool
  | none => true
  | some s => s = ""

/-- generate_snap_json: cache → rule-based → generative, then cache the
result when it carries no (truthy) error marker.  `attempts` feeds the
generative retry loop when it is reached. -/
def generate_snap_json (env : GenEnv) (st : GenState)
    (attempts : List AttemptOutcome) (intent : ParsedIntent)
    (user_description : String) : Program × GenState :=
  match check_cache st user_description with
  | (some cached, st1) => (cached, { st1 with cache_hits := st1.cache_hits + 1 })
  | (none, st1) =>
    let step :=
      match find_matching_pattern env.ratio env.aliases env.patternsDb intent.action with
      | some pattern =>
        (format_for_snap (create_from_pattern pattern intent) "Sprite",
         { st1 with rule_based_hits := st1.rule_based_hits + 1 })
      | none =>
        let st1b := { st1 with generative_hits := st1.generative_hits + 1 }
        let pc := call_generative_engine st1b.api_call_count st1b.daily_api_limit
          env.allowed env.db attempts user_description
        (pc.1, { st1b with api_call_count := pc.2 })
    let st3 :=
      if errorFalsy step.1.payload.error then
        store_cache step.2 user_description step.1
      else step.2
    (step.1, st3)

/-! ## Predicates and concrete instances used by the theorems -/

/-- Is this first frame a connect message carrying a (truthy) token?  Any
other first frame — unparsable text, valid non-object JSON, a wrong or
missing `type`, or a missing/empty token — is a rejected handshake. -/
def isConnectWithToken : FirstFrame → Bool
  | .msg mtype mtoken =>
    mtype == some "connect" &&
      (match mtoken with
       | some tk => tk ≠ ""
       | none => false)
  | _ => false

/-- The observable shape of the synthetic error program: a non-null error
marker and a single script holding exactly one hat block (with an
event-trigger opcode) linked to one say-error block. -/
def errorFallbackShape (p : Program) : Bool :=
  p.payload.error.isSome &&
    match p.payload.scripts with
    | [s] =>
      match s.blocks with
      | [hd, sayb] =>
        hd.is_hat_block && hatTriggerOpcodes.contains hd.opcode &&
          hd.next == some sayb.block_id && sayb.opcode == "doSay" &&
          !sayb.is_hat_block && sayb.next == none
      | _ => false
    | _ => false

/-- A session record whose token displays as `ABCDEF12`, expiring at epoch
second 100. -/
def c4Rec : SessionRec :=
  { token := "snap-mcp-abcdef12345", created_at := 0, expires_at := 100 }

def c4Sessions : Sessions := [("sess_1", c4Rec)]

/-- An intent with a recognized trigger (as produced by the intent parser
for "when the flag is clicked, jump"). -/
def c3Intent : ParsedIntent := { action := "jump", trigger := some "flag_click" }

/-- A matched pattern with one template block. -/
def c3Pattern : PatternData :=
  { name := some "jump_basic"
    blocks := [{ opcode := "changeYBy", category := "motion",
                 inputs := [("DY", .n 50)] }] }

/-- The worked example program from the generator prompt (make the sprite
jump): a hat block followed by three chained motion/control blocks. -/
def c1Program : Program :=
  { command := "create_blocks"
    payload :=
      { target_sprite := "Sprite"
        scripts :=
          [{ script_id := "script_001"
             position := ⟨50, 50⟩
             blocks :=
               [{ block_id := "block_001", opcode := "whenGreenFlag",
                  category := "control", inputs := [], is_hat_block := true,
                  next := some "block_002" },
                { block_id := "block_002", opcode := "changeYBy",
                  category := "motion", inputs := [("DY", .n 50)],
                  is_hat_block := false, next := some "block_003" },
                { block_id := "block_003", opcode := "doWait",
                  category := "control", inputs := [("DURATION", .n 1)],
                  is_hat_block := false, next := some "block_004" },
                { block_id := "block_004", opcode := "changeYBy",
                  category := "motion", inputs := [("DY", .n (-50))],
                  is_hat_block := false, next := none }] }]
        error := none
        user_request := none } }

def c1Allowed : List String := ["whenGreenFlag", "changeYBy", "doWait"]

def c1Db : KnowledgeDb :=
  [("whenGreenFlag", "control"), ("changeYBy", "motion"), ("doWait", "control")]

/-- A generator environment whose trigger map resolves the action "jump"
exactly (the scoring function is never consulted on the exact path). -/
def c7Env : GenEnv :=
  { ratio := fun _ _ => 0
    aliases := [("jump", "jump_basic")]
    patternsDb := [("jump_basic", c3Pattern)]
    allowed := c1Allowed
    db := c1Db }

def c7Intent : ParsedIntent := { action := "jump" }

/-! ## Theorems -/

theorem mem_pendingInsert_self (mid : String) (l : List String) :
    mid ∈ pendingInsert mid l := by
  simp [pendingInsert]

theorem not_mem_pendingRemove_self (mid : String) (l : List String) :
    mid ∉ pendingRemove mid l := by
  simp [pendingRemove]

/-- Counterexample for C5: a first frame of valid JSON that is not an
object (for example the array `[1,2,3]`) is not a connect message carrying
a token, yet the source closes it with code 1011 "Internal Server Error"
(the AttributeError from `connect_data.get` falls into the catch-all
handler), never with the protocol-error code 1002 the claim requires. -/
theorem C5_counterexample :
    isConnectWithToken .nonObject = false ∧
    handle_connection (fun _ => (none, some "invalid")) [] .nonObject =
      ⟨.closed 1011 "Internal Server Error", [], false⟩ ∧
    ∀ reason, handle_connection (fun _ => (none, some "invalid")) [] .nonObject ≠
      ⟨.closed 1002 reason, [], false⟩ :=
  ⟨rfl, rfl, fun _ h => by simp [handle_connection] at h⟩

/-- Claim C5 (amended): a first frame that is not a connect message carrying
a token closes the connection before any command is accepted and is never
registered; the close code is the protocol-error code 1002 for unparsable
text, a wrong or missing `type`, or a missing token, but the internal-error
code 1011 for valid non-object JSON (which trips the catch-all exception
handler).  A well-formed connect whose token the validator rejects closes
with auth-error code 1008, equally unregistered. -/
theorem C5_handshake_rejection (v : String → Option String × Option String)
    (conns : List String) (f : FirstFrame) :
    (isConnectWithToken f = false → f ≠ .nonObject →
      ∃ reason, handle_connection v conns f = ⟨.closed 1002 reason, conns, false⟩) ∧
    (f = .nonObject →
      handle_connection v conns f =
        ⟨.closed 1011 "Internal Server Error", conns, false⟩) ∧
    (∀ tk, f = .msg (some "connect") (some tk) → tk ≠ "" → (v tk).1 = none →
      ∃ reason, handle_connection v conns f = ⟨.closed 1008 reason, conns, false⟩) := by
  refine ⟨?_, ?_, ?_⟩
  · intro hn hno
    match f with
    | .malformed => exact ⟨_, rfl⟩
    | .nonObject => exact absurd rfl hno
    | .msg mtype mtoken =>
      by_cases htype : mtype = some "connect"
      · have htok : mtoken = none ∨ mtoken = some "" := by
          rcases mtoken with _ | tk
          · exact Or.inl rfl
          · refine Or.inr ?_
            simp only [isConnectWithToken, htype, Bool.and_eq_false_iff] at hn
            rcases hn with hn | hn
            · simp at hn
            · simpa using hn
        rcases htok with htok | htok <;>
          exact ⟨"Protocol Error: Missing token.",
            by simp [handle_connection, htype, htok]⟩
      · exact ⟨"Protocol Error: Expected " ++ sq ++ "connect" ++ sq ++ " message.",
          by simp [handle_connection, htype]⟩
  · rintro rfl
    rfl
  · rintro tk rfl htk hv
    rcases hveq : v tk with ⟨vfst, vsnd⟩
    rw [hveq] at hv
    simp only at hv
    subst hv
    exact ⟨"Invalid Token: " ++ vsnd.getD "",
      by simp [handle_connection, htk, hveq]⟩

/-- Witness for C5 (amended): a `ping` sent as the first frame is closed
with code 1002 and the registry is untouched. -/
theorem C5_witness :
    (isConnectWithToken (.msg (some "ping") none) = false ∧
      FirstFrame.msg (some "ping") none ≠ .nonObject) ∧
    ∃ reason,
      handle_connection (fun _ => (none, some "no session")) []
        (.msg (some "ping") none) = ⟨.closed 1002 reason, [], false⟩ :=
  ⟨⟨by decide, by decide⟩,
    (C5_handshake_rejection (fun _ => (none, some "no session")) []
      (.msg (some "ping") none)).1 (by decide) (by decide)⟩

/-- Claim C6: dispatching a command on a connected session registers a
pending handle under the correlation id; if the matching response frame
arrives in time the call returns it and the entry is gone, and on timeout
the call returns the typed timeout error, the stale entry is removed, and
the connection registry is untouched in both cases. -/
theorem C6_send_command (st : CommState) (sid mid : String) (d : JVal)
    (h : sid ∈ st.connections) :
    ((send_command st sid mid (.response d)).1 = .ok d ∧
      mid ∉ ((send_command st sid mid (.response d)).2).pending ∧
      ((send_command st sid mid (.response d)).2).connections = st.connections) ∧
    ((send_command st sid mid .timedOut).1 = .error .timeoutError ∧
      mid ∉ ((send_command st sid mid .timedOut).2).pending ∧
      ((send_command st sid mid .timedOut).2).connections = st.connections) := by
  have hmem := mem_pendingInsert_self mid st.pending
  refine ⟨⟨?_, ?_, ?_⟩, ?_, ?_, ?_⟩ <;>
    simp [send_command, h, handle_message, hmem, pendingRemove, pendingInsert]

/-- Witness for C6 at a concrete connected session. -/
theorem C6_witness :
    "sess_a" ∈ (CommState.mk ["sess_a"] [] 0).connections ∧
    ((send_command (CommState.mk ["sess_a"] [] 0) "sess_a" "msg_1"
        (.response (.s "ok"))).1 = .ok (.s "ok") ∧
      "msg_1" ∉ ((send_command (CommState.mk ["sess_a"] [] 0) "sess_a" "msg_1"
        (.response (.s "ok"))).2).pending ∧
      ((send_command (CommState.mk ["sess_a"] [] 0) "sess_a" "msg_1"
        (.response (.s "ok"))).2).connections = ["sess_a"]) ∧
    ((send_command (CommState.mk ["sess_a"] [] 0) "sess_a" "msg_1" .timedOut).1 =
        .error .timeoutError ∧
      "msg_1" ∉ ((send_command (CommState.mk ["sess_a"] [] 0) "sess_a" "msg_1"
        .timedOut).2).pending ∧
      ((send_command (CommState.mk ["sess_a"] [] 0) "sess_a" "msg_1"
        .timedOut).2).connections = ["sess_a"]) :=
  ⟨by decide,
    C6_send_command (CommState.mk ["sess_a"] [] 0) "sess_a" "msg_1" (.s "ok")
      (by decide)⟩

/-- Counterexample for C9: when the socket write raises (peer closed the
connection), send_command terminates with an error yet the correlation id
it allocated is still in the pending-responses table — there is no
try/finally protecting the entry. -/
theorem C9_counterexample :
    (send_command (CommState.mk ["sess_a"] [] 0) "sess_a" "msg_1" .sendRaise).1 =
        .error .sendError ∧
      "msg_1" ∈ ((send_command (CommState.mk ["sess_a"] [] 0) "sess_a" "msg_1"
        .sendRaise).2).pending :=
  ⟨rfl, by decide⟩

/-- Claim C9 (amended): when send_command on a connected session terminates
by returning a response or by raising the timeout error, the correlation id
it allocated is no longer in the pending-responses table; this does not
extend to other exceptions — a send failure leaves the entry behind. -/
theorem C9_pending_cleanup (st : CommState) (sid mid : String) (d : JVal)
    (h : sid ∈ st.connections) :
    mid ∉ ((send_command st sid mid (.response d)).2).pending ∧
    mid ∉ ((send_command st sid mid .timedOut).2).pending ∧
    mid ∈ ((send_command st sid mid .sendRaise).2).pending := by
  have hmem := mem_pendingInsert_self mid st.pending
  refine ⟨?_, ?_, ?_⟩ <;>
    simp [send_command, h, handle_message, hmem, pendingRemove, pendingInsert]

/-- Witness for C9 (amended) at a concrete connected session. -/
theorem C9_witness :
    "sess_b" ∈ (CommState.mk ["sess_b"] [] 0).connections ∧
    ("msg_2" ∉ ((send_command (CommState.mk ["sess_b"] [] 0) "sess_b" "msg_2"
        (.response (.b true))).2).pending ∧
      "msg_2" ∉ ((send_command (CommState.mk ["sess_b"] [] 0) "sess_b" "msg_2"
        .timedOut).2).pending ∧
      "msg_2" ∈ ((send_command (CommState.mk ["sess_b"] [] 0) "sess_b" "msg_2"
        .sendRaise).2).pending) :=
  ⟨by decide,
    C9_pending_cleanup (CommState.mk ["sess_b"] [] 0) "sess_b" "msg_2" (.b true)
      (by decide)⟩

theorem errorFallbackShape_create (e d : String) :
    errorFallbackShape (create_error_fallback e d) = true := rfl

theorem engineLoop_all_fail (allowed : List String) (db : KnowledgeDb)
    (desc : String) :
    ∀ (attempts : List AttemptOutcome) (calls : Nat),
      attempts.all (attemptFails allowed db) = true →
      (engineLoop allowed db desc attempts calls).1 =
        create_error_fallback "All validation retries failed" desc := by
  intro attempts
  induction attempts with
  | nil => intro calls _; rfl
  | cons a rest ih =>
    intro calls hall
    rw [List.all_cons, Bool.and_eq_true] at hall
    match a with
    | .parseError => exact ih _ hall.2
    | .otherError => exact ih _ hall.2
    | .parsed p =>
      have hfail : (validate_snap_json p allowed db).1 = false := by
        have := hall.1
        simpa [attemptFails] using this
      simpa [engineLoop, hfail] using ih _ hall.2

/-- Claim C2: when the daily quota is already exhausted, or every bounded
retry attempt fails to produce a program that parses and validates,
_call_generative_engine returns (it never raises — the embedding is a total
function into `Program`) a program whose payload carries a non-null error
field and whose single script is exactly one hat block chained to one
say-error block. -/
theorem C2_engine_failure_fallback (api_call_count daily_api_limit : Nat)
    (allowed : List String) (db : KnowledgeDb) (attempts : List AttemptOutcome)
    (desc : String)
    (h : daily_api_limit ≤ api_call_count ∨
      attempts.all (attemptFails allowed db) = true) :
    errorFallbackShape
      (call_generative_engine api_call_count daily_api_limit allowed db
        attempts desc).1 = true := by
  by_cases hq : daily_api_limit ≤ api_call_count
  · simp only [call_generative_engine, if_pos hq]
    exact errorFallbackShape_create _ _
  · have hall : attempts.all (attemptFails allowed db) = true := h.resolve_left hq
    simp only [call_generative_engine, if_neg hq]
    rw [engineLoop_all_fail allowed db desc attempts api_call_count hall]
    exact errorFallbackShape_create _ _

/-- Witness for C2: backend garbage on both retry attempts yields the
hat-plus-say error program. -/
theorem C2_witness :
    ((1000 : Nat) ≤ 0 ∨
      ([AttemptOutcome.parseError, AttemptOutcome.parseError].all
        (attemptFails [] []) = true)) ∧
    errorFallbackShape
      (call_generative_engine 0 1000 [] []
        [AttemptOutcome.parseError, AttemptOutcome.parseError] "garbage").1 = true :=
  ⟨Or.inr (by decide),
    C2_engine_failure_fallback 0 1000 [] []
      [AttemptOutcome.parseError, AttemptOutcome.parseError] "garbage"
      (Or.inr (by decide))⟩

/-- Claim C1: any program accepted by the validator has, in each of its
scripts, a first block that is a hat block with an opcode from the fixed
event-trigger set, and no other hat block.  (Reason: `validate_snap_json`
is modelled from the spec; it is imported by block_generator.py but missing
from the source tree.) -/
theorem C1_validated_hat_invariant (p : Program) (allowed : List String)
    (db : KnowledgeDb) (h : (validate_snap_json p allowed db).1 = true) :
    ∀ s ∈ p.payload.scripts, ∃ hd tl, s.blocks = hd :: tl ∧
      hd.is_hat_block = true ∧ hd.opcode ∈ hatTriggerOpcodes ∧
      ∀ b ∈ tl, b.is_hat_block = false := by
  intro s hs
  have hhat : checkHatGate s.blocks = true := by
    unfold validate_snap_json at h
    split_ifs at h with h1 h2 h3 h4 h5 h6 h7
    · rw [List.any_eq_true] at h4
      push_neg at h4
      have := h4 s hs
      simpa using this
  match hbl : s.blocks with
  | [] => rw [hbl] at hhat; simp [checkHatGate] at hhat
  | hd :: tl =>
    rw [hbl] at hhat
    simp only [checkHatGate, Bool.and_eq_true, List.all_eq_true] at hhat
    refine ⟨hd, tl, rfl, hhat.1.1, ?_, ?_⟩
    · have := hhat.1.2
      simpa [List.contains_eq_any_beq, List.any_eq_true] using this
    · intro b hb
      have := hhat.2 b hb
      simpa using this

/-- Witness for C1: the worked example of the generator itself (the jump program)
passes the validator and exhibits the hat invariant. -/
theorem C1_witness :
    (validate_snap_json c1Program c1Allowed c1Db).1 = true ∧
    ∀ s ∈ c1Program.payload.scripts, ∃ hd tl, s.blocks = hd :: tl ∧
      hd.is_hat_block = true ∧ hd.opcode ∈ hatTriggerOpcodes ∧
      ∀ b ∈ tl, b.is_hat_block = false :=
  ⟨by decide, C1_validated_hat_invariant c1Program c1Allowed c1Db (by decide)⟩

/-- Claim C3 (code bug): for an intent with a recognized trigger and a
pattern with one template block, the rule-based path emits a trigger hat
block hard-wired to `next = "block_001"` while the first template block is
given id `"block_002"` (the id counter already counts the trigger block),
so the `next` reference dangles and the template block is unreachable from
the head — the Script linkage invariant fails. -/
theorem C3_trigger_linkage_bug :
    (create_from_pattern c3Pattern c3Intent).blocks =
      [{ block_id := "block_000", opcode := "whenGreenFlag", category := "control",
         inputs := [], is_hat_block := true, next := some "block_001" },
       { block_id := "block_002", opcode := "changeYBy", category := "motion",
         inputs := [("DY", .n 50)], is_hat_block := false, next := none }] ∧
    (format_for_snap (create_from_pattern c3Pattern c3Intent) "Sprite").payload.scripts.all
      scriptLinkageOk = false :=
  ⟨rfl, rfl⟩

theorem char_toNat_ofNat_small {n : Nat} (h : n < 55296) :
    (Char.ofNat n).toNat = n := by
  unfold Char.ofNat
  rw [dif_pos (Or.inl h)]
  simp [Char.ofNatAux, Char.toNat, UInt32.toNat, BitVec.toNat_ofNatLt]

theorem char_toUpper_toLower (c : Char) :
    Char.toUpper (Char.toLower c) = Char.toUpper c := by
  unfold Char.toUpper Char.toLower
  by_cases h : c.toNat ≥ 65 ∧ c.toNat ≤ 90
  · rw [if_pos h]
    have hval : (Char.ofNat (c.toNat + 32)).toNat = c.toNat + 32 :=
      char_toNat_ofNat_small (by omega)
    rw [if_pos (by rw [hval]; omega), hval,
      if_neg (by omega), show c.toNat + 32 - 32 = c.toNat by omega,
      Char.ofNat_toNat]
  · rw [if_neg h]

theorem char_toUpper_toUpper (c : Char) :
    Char.toUpper (Char.toUpper c) = Char.toUpper c := by
  unfold Char.toUpper
  by_cases h : c.toNat ≥ 97 ∧ c.toNat ≤ 122
  · rw [if_pos h]
    have hval : (Char.ofNat (c.toNat - 32)).toNat = c.toNat - 32 :=
      char_toNat_ofNat_small (by omega)
    rw [if_neg (by rw [hval]; omega)]
  · rw [if_neg h, if_neg h]

theorem pyUpper_pyLower (s : String) : pyUpper (pyLower s) = pyUpper s := by
  simp only [pyUpper, pyLower, List.map_map]
  exact congrArg String.mk (List.map_congr_left fun c _ => char_toUpper_toLower c)

theorem pyUpper_pyUpper (s : String) : pyUpper (pyUpper s) = pyUpper s := by
  simp only [pyUpper, List.map_map]
  exact congrArg String.mk (List.map_congr_left fun c _ => char_toUpper_toUpper c)

theorem displayMatch_congr (rec : SessionRec) {t1 t2 : String}
    (h : pyUpper t1 = pyUpper t2) : displayMatch rec t1 = displayMatch rec t2 := by
  simp [displayMatch, h]

theorem find_session_congr (sessions : Sessions) {t1 t2 : String}
    (h : pyUpper t1 = pyUpper t2) :
    find_session_by_display_token sessions t1 =
      find_session_by_display_token sessions t2 := by
  induction sessions with
  | nil => rfl
  | cons p t ih =>
    simp only [find_session_by_display_token, displayMatch_congr p.2 h, ih]

theorem validate_token_congr (sessions : Sessions) (now : Nat) {t1 t2 : String}
    (h : pyUpper t1 = pyUpper t2) :
    validate_token sessions now t1 = validate_token sessions now t2 := by
  simp only [validate_token, find_session_congr sessions h]

/-- Claim C10: validate_token is insensitive to the case of the entered
display token — the stored suffix and the input are both upper-cased before
comparison, so the fully lower-cased and fully upper-cased variants of any
input validate identically to the input itself. -/
theorem C10_display_token_case_insensitive (sessions : Sessions) (now : Nat)
    (t : String) :
    validate_token sessions now (pyLower t) = validate_token sessions now t ∧
    validate_token sessions now (pyUpper t) = validate_token sessions now t :=
  ⟨validate_token_congr sessions now (pyUpper_pyLower t),
    validate_token_congr sessions now (pyUpper_pyUpper t)⟩

/-- Counterexample for C4: at `now = expires_at` (epoch second 100) the
token still validates — the code tests `utcnow() > expires_at`, so validity
is the closed interval up to `expires_at`, not the half-open
`[issued_at, expires_at)` stated by the claim. -/
theorem C4_counterexample :
    validate_token c4Sessions 100 "ABCDEF12" = (some "sess_1", none) ∧
    ¬ (100 < c4Rec.expires_at) := by decide

theorem find_session_none_iff (sessions : Sessions) (d : String) :
    find_session_by_display_token sessions d = none ↔
      ∀ p ∈ sessions, displayMatch p.2 d = false := by
  induction sessions with
  | nil => simp [find_session_by_display_token]
  | cons p t ih =>
    by_cases hp : displayMatch p.2 d = true
    · simp [find_session_by_display_token, hp]
    · simp only [Bool.not_eq_true] at hp
      simp [find_session_by_display_token, hp, ih]

theorem find_session_some_mem (sessions : Sessions) (d sid : String)
    (h : find_session_by_display_token sessions d = some sid) :
    ∃ rec, (sid, rec) ∈ sessions ∧ displayMatch rec d = true := by
  induction sessions with
  | nil => simp [find_session_by_display_token] at h
  | cons p t ih =>
    by_cases hp : displayMatch p.2 d = true
    · simp only [find_session_by_display_token, hp, if_true, Option.some.injEq] at h
      exact ⟨p.2, by simp [← h], hp⟩
    · simp only [Bool.not_eq_true] at hp
      simp only [find_session_by_display_token, hp, Bool.false_eq_true,
        if_false] at h
      obtain ⟨rec, hmem, hm⟩ := ih h
      exact ⟨rec, List.mem_cons_of_mem _ hmem, hm⟩

theorem assocFind_of_mem_nodup {α : Type} (l : List (String × α))
    (hnd : (l.map Prod.fst).Nodup) (k : String) (v : α) (hmem : (k, v) ∈ l) :
    assocFind l k = some v := by
  induction l with
  | nil => simp at hmem
  | cons p t ih =>
    simp only [List.map_cons, List.nodup_cons] at hnd
    rcases List.mem_cons.mp hmem with heq | hmem2
    · rw [← heq]
      simp [assocFind]
    · have hk : k ∈ t.map Prod.fst := List.mem_map.mpr ⟨(k, v), hmem2, rfl⟩
      have hne : p.1 ≠ k := fun he => hnd.1 (he ▸ hk)
      simp only [assocFind, if_neg hne]
      exact ih hnd.2 hmem2

theorem validate_token_eq_of_find (sessions : Sessions) (now : Nat)
    (d sid : String) (rec : SessionRec)
    (hfind : find_session_by_display_token sessions d = some sid)
    (hlook : assocFind sessions sid = some rec) :
    validate_token sessions now d =
      if rec.expires_at < now then (none, some "Token has expired.")
      else (some sid, none) := by
  simp only [validate_token, hfind, hlook]

/-- Claim C4 (amended): validate_token returns a session id with no error
exactly when the display suffix of a stored session matches and `now` has not
passed `expires_at` — validity is the closed interval up to and including
`expires_at`.  Strictly after `expires_at` it returns
`(none, "Token has expired.")`, an unknown display code returns
`(none, "Session not found for this token.")`, and generate_secure_token
fixes `expires_at` at `issued_at` plus 30 minutes.  (Stated for stores with
unique session ids and at most one session matching the entered code, as a
Python dict store provides.) -/
theorem C4_token_validation (sessions : Sessions) (now : Nat) (d : String)
    (hkeys : (sessions.map Prod.fst).Nodup)
    (huniq : ∀ p ∈ sessions, ∀ q ∈ sessions,
      displayMatch p.2 d = true → displayMatch q.2 d = true → p = q) :
    ((∃ sid, validate_token sessions now d = (some sid, none)) ↔
      ∃ p ∈ sessions, displayMatch p.2 d = true ∧ now ≤ p.2.expires_at) ∧
    ((∃ p ∈ sessions, displayMatch p.2 d = true ∧ p.2.expires_at < now) →
      validate_token sessions now d = (none, some "Token has expired.")) ∧
    ((∀ p ∈ sessions, displayMatch p.2 d = false) →
      validate_token sessions now d =
        (none, some "Session not found for this token.")) ∧
    (∀ (s0 : Sessions) (sid uuid : String) (t : Nat),
      (generate_secure_token s0 sid uuid t).1.expires_at = t + 1800) := by
  rcases hfind : find_session_by_display_token sessions d with _ | sid
  · have hall := (find_session_none_iff sessions d).mp hfind
    refine ⟨?_, ?_, ?_, fun _ _ _ _ => rfl⟩
    · constructor
      · rintro ⟨sid, hv⟩
        rw [validate_token, hfind] at hv
        exact absurd hv (by simp)
      · rintro ⟨p, hp, hm, _⟩
        exact absurd (hall p hp) (by simp [hm])
    · rintro ⟨p, hp, hm, _⟩
      exact absurd (hall p hp) (by simp [hm])
    · intro _
      rw [validate_token, hfind]
  · obtain ⟨rec, hmem, hm⟩ := find_session_some_mem sessions d sid hfind
    have hlook : assocFind sessions sid = some rec :=
      assocFind_of_mem_nodup sessions hkeys sid rec hmem
    have hveq := validate_token_eq_of_find sessions now d sid rec hfind hlook
    refine ⟨?_, ?_, ?_, fun _ _ _ _ => rfl⟩
    · constructor
      · rintro ⟨sid2, hv⟩
        rw [hveq] at hv
        by_cases hexp : rec.expires_at < now
        · rw [if_pos hexp] at hv
          exact absurd hv (by simp)
        · exact ⟨(sid, rec), hmem, hm, show now ≤ rec.expires_at by omega⟩
      · rintro ⟨p, hp, hmp, hle⟩
        have hpe : p = (sid, rec) := huniq p hp (sid, rec) hmem hmp hm
        have hle2 : now ≤ rec.expires_at := by rw [hpe] at hle; simpa using hle
        refine ⟨sid, ?_⟩
        rw [hveq, if_neg (by omega)]
    · rintro ⟨p, hp, hmp, hlt⟩
      have hpe : p = (sid, rec) := huniq p hp (sid, rec) hmem hmp hm
      have hlt2 : rec.expires_at < now := by rw [hpe] at hlt; simpa using hlt
      rw [hveq, if_pos hlt2]
    · intro hall
      exact absurd (hall (sid, rec) hmem) (by simp [hm])

/-- Witness for C4 (amended) on a one-session store before expiry. -/
theorem C4_witness :
    ((c4Sessions.map Prod.fst).Nodup ∧
      ∀ p ∈ c4Sessions, ∀ q ∈ c4Sessions,
        displayMatch p.2 "abcdef12" = true →
          displayMatch q.2 "abcdef12" = true → p = q) ∧
    ((∃ sid, validate_token c4Sessions 40 "abcdef12" = (some sid, none)) ↔
      ∃ p ∈ c4Sessions, displayMatch p.2 "abcdef12" = true ∧
        40 ≤ p.2.expires_at) ∧
    ((∃ p ∈ c4Sessions, displayMatch p.2 "abcdef12" = true ∧
        p.2.expires_at < 40) →
      validate_token c4Sessions 40 "abcdef12" =
        (none, some "Token has expired.")) ∧
    ((∀ p ∈ c4Sessions, displayMatch p.2 "abcdef12" = false) →
      validate_token c4Sessions 40 "abcdef12" =
        (none, some "Session not found for this token.")) ∧
    (∀ (s0 : Sessions) (sid uuid : String) (t : Nat),
      (generate_secure_token s0 sid uuid t).1.expires_at = t + 1800) :=
  ⟨⟨by decide, by decide⟩,
    C4_token_validation c4Sessions 40 "abcdef12" (by decide) (by decide)⟩

theorem specFuzzyChoice_threshold (ratio : String → String → ℚ) (a : String) :
    ∀ (l : List (String × String)) (p : String) (s : ℚ),
      specFuzzyChoice ratio a l = some (p, s) → (3 : ℚ) / 5 ≤ s := by
  intro l
  induction l with
  | nil => intro p s h; simp [specFuzzyChoice] at h
  | cons hd t ih =>
    intro p s h
    obtain ⟨trigger, pname⟩ := hd
    rcases hspec : specFuzzyChoice ratio a t with _ | ⟨q, s2⟩ <;>
      simp only [specFuzzyChoice, hspec] at h
    · split_ifs at h with hc
      · simp only [Option.some.injEq, Prod.mk.injEq] at h
        rw [← h.2]
        exact hc
    · split_ifs at h with hc
      · simp only [Option.some.injEq, Prod.mk.injEq] at h
        rw [← h.2]
        exact hc.1
      · simp only [Option.some.injEq, Prod.mk.injEq] at h
        rw [← h.2]
        exact ih q s2 hspec

theorem specFuzzyChoice_some_mem (ratio : String → String → ℚ) (a : String) :
    ∀ (l : List (String × String)) (q : String) (s2 : ℚ),
      specFuzzyChoice ratio a l = some (q, s2) →
      ∃ e ∈ l, ratio a e.1 = s2 := by
  intro l
  induction l with
  | nil => intro q s2 h; simp [specFuzzyChoice] at h
  | cons hd t ih =>
    intro q s2 h
    obtain ⟨trigger, pname⟩ := hd
    rcases hspec : specFuzzyChoice ratio a t with _ | ⟨q2, s3⟩ <;>
      simp only [specFuzzyChoice, hspec] at h
    · split_ifs at h with hc
      · simp only [Option.some.injEq, Prod.mk.injEq] at h
        exact ⟨(trigger, pname), by simp, h.2⟩
    · split_ifs at h with hc
      · simp only [Option.some.injEq, Prod.mk.injEq] at h
        exact ⟨(trigger, pname), by simp, h.2⟩
      · simp only [Option.some.injEq, Prod.mk.injEq] at h
        obtain ⟨e, he, hes⟩ := ih q2 s3 hspec
        exact ⟨e, List.mem_cons_of_mem _ he, by rw [hes, h.2]⟩

theorem specFuzzyChoice_none_iff (ratio : String → String → ℚ) (a : String) :
    ∀ (l : List (String × String)),
      specFuzzyChoice ratio a l = none ↔
        ∀ e ∈ l, ratio a e.1 < (3 : ℚ) / 5 := by
  intro l
  induction l with
  | nil => simp [specFuzzyChoice]
  | cons hd t ih =>
    obtain ⟨trigger, pname⟩ := hd
    rcases hspec : specFuzzyChoice ratio a t with _ | ⟨q, s2⟩ <;>
      simp only [specFuzzyChoice, hspec]
    · rw [hspec] at ih
      constructor
      · intro h e he
        split_ifs at h with hc
        rcases List.mem_cons.mp he with rfl | het
        · simpa using not_le.mp hc
        · exact (ih.mp rfl) e het
      · intro h
        rw [if_neg (not_le.mpr (by simpa using h (trigger, pname) (by simp)))]
    · constructor
      · intro h
        split_ifs at h
      · intro h
        have hth : (3 : ℚ) / 5 ≤ s2 := specFuzzyChoice_threshold ratio a t q s2 hspec
        obtain ⟨e, he, hes⟩ := specFuzzyChoice_some_mem ratio a t q s2 hspec
        exact absurd (h e (List.mem_cons_of_mem _ he))
          (by rw [hes]; exact not_lt.mpr hth)

theorem specFuzzyChoice_maximal (ratio : String → String → ℚ) (a : String) :
    ∀ (l : List (String × String)) (p : String) (s : ℚ),
      specFuzzyChoice ratio a l = some (p, s) →
      ∀ e ∈ l, ratio a e.1 ≤ s := by
  intro l
  induction l with
  | nil => intro p s h; simp [specFuzzyChoice] at h
  | cons hd t ih =>
    intro p s h e he
    obtain ⟨trigger, pname⟩ := hd
    rcases hspec : specFuzzyChoice ratio a t with _ | ⟨q, s2⟩ <;>
      simp only [specFuzzyChoice, hspec] at h
    · split_ifs at h with hc
      · simp only [Option.some.injEq, Prod.mk.injEq] at h
        rw [← h.2]
        rcases List.mem_cons.mp he with rfl | het
        · simp
        · have hlt := ((specFuzzyChoice_none_iff ratio a t).mp hspec) e het
          linarith
    · have hs2 : (3 : ℚ) / 5 ≤ s2 := specFuzzyChoice_threshold ratio a t q s2 hspec
      split_ifs at h with hc
      · simp only [Option.some.injEq, Prod.mk.injEq] at h
        rw [← h.2]
        rcases List.mem_cons.mp he with rfl | het
        · simp
        · have := ih q s2 hspec e het
          linarith [hc.2]
      · simp only [Option.some.injEq, Prod.mk.injEq] at h
        rw [← h.2]
        rcases List.mem_cons.mp he with rfl | het
        · simp only
          by_cases hb : (3 : ℚ) / 5 ≤ ratio a trigger
          · have hlt : ¬ s2 ≤ ratio a trigger := fun hle => hc ⟨hb, hle⟩
            linarith [not_le.mp hlt]
          · linarith [not_le.mp hb]
        · exact ih q s2 hspec e het

theorem specFuzzyChoice_first (ratio : String → String → ℚ) (a : String) :
    ∀ (l : List (String × String)) (p : String) (s : ℚ),
      specFuzzyChoice ratio a l = some (p, s) →
      ∃ l1 trigger l2, l = l1 ++ (trigger, p) :: l2 ∧ ratio a trigger = s ∧
        ∀ e ∈ l1, ratio a e.1 < s := by
  intro l
  induction l with
  | nil => intro p s h; simp [specFuzzyChoice] at h
  | cons hd t ih =>
    intro p s h
    obtain ⟨trigger, pname⟩ := hd
    rcases hspec : specFuzzyChoice ratio a t with _ | ⟨q, s2⟩ <;>
      simp only [specFuzzyChoice, hspec] at h
    · split_ifs at h with hc
      · simp only [Option.some.injEq, Prod.mk.injEq] at h
        exact ⟨[], trigger, t, by rw [h.1]; rfl, h.2, by simp⟩
    · have hs2 : (3 : ℚ) / 5 ≤ s2 := specFuzzyChoice_threshold ratio a t q s2 hspec
      split_ifs at h with hc
      · simp only [Option.some.injEq, Prod.mk.injEq] at h
        exact ⟨[], trigger, t, by rw [h.1]; rfl, h.2, by simp⟩
      · simp only [Option.some.injEq, Prod.mk.injEq] at h
        obtain ⟨l1, tr2, l2, hsplit, hsc, hlt⟩ := ih q s2 hspec
        have hhd : ratio a trigger < s2 := by
          by_cases hb : (3 : ℚ) / 5 ≤ ratio a trigger
          · have : ¬ s2 ≤ ratio a trigger := fun hle => hc ⟨hb, hle⟩
            linarith [not_le.mp this]
          · linarith [not_le.mp hb]
        refine ⟨(trigger, pname) :: l1, tr2, l2, by rw [hsplit, ← h.1]; rfl,
          by rw [hsc, h.2], ?_⟩
        intro e hel
        rcases List.mem_cons.mp hel with rfl | he1
        · rw [← h.2]; exact hhd
        · rw [← h.2]; exact hlt e he1

theorem fuzzyLoop_eq_specFuzzyChoice (ratio : String → String → ℚ) (a : String) :
    ∀ (l : List (String × String)) (best : Option String) (s0 : ℚ),
      fuzzyLoop ratio a l best s0 =
        match specFuzzyChoice ratio a l with
        | none => best
        | some (p, s) => if s0 < s then some p else best := by
  intro l
  induction l with
  | nil => intro best s0; rfl
  | cons hd t ih =>
    intro best s0
    obtain ⟨trigger, pname⟩ := hd
    rcases hspec : specFuzzyChoice ratio a t with _ | ⟨q, s2⟩ <;>
      simp only [fuzzyLoop, specFuzzyChoice, hspec, ih]
    · by_cases hB : (3 : ℚ) / 5 ≤ ratio a trigger
      · by_cases hA : s0 < ratio a trigger
        · simp [hspec, hA, hB]
        · simp [hspec, hA, hB]
      · simp [hspec, hB]
    · by_cases hB : (3 : ℚ) / 5 ≤ ratio a trigger
      · by_cases hD : s2 ≤ ratio a trigger
        · by_cases hA : s0 < ratio a trigger
          · simp [hspec, hA, hB, hD, not_lt.mpr hD]
          · have h2 : ¬ s0 < s2 := fun hx => hA (lt_of_lt_of_le hx hD)
            simp [hspec, hA, hB, hD, not_lt.mpr hD, h2]
        · have hC : ratio a trigger < s2 := not_le.mp hD
          by_cases hA : s0 < ratio a trigger
          · have hE : s0 < s2 := lt_trans hA hC
            simp [hspec, hA, hB, hD, hC, hE]
          · simp [hspec, hA, hB, hD]
      · simp [hspec, hB]

/-- Claim C8: when the (lower-cased, stripped) action misses the exact
trigger map, _find_matching_pattern returns exactly the pattern selected by
the fuzzy rule of the specification — the first-encountered trigger of maximal
similarity score, accepted only when that score reaches 0.6, and no
pattern otherwise.  (`specFuzzyChoice` realizes the words of the claim; the
companion lemmas show it picks a maximal score ≥ 3/5 held by the earliest
such trigger, and returns nothing exactly when every score is below
3/5.) -/
theorem C8_fuzzy_fallback_selection (ratio : String → String → ℚ)
    (aliases : List (String × String)) (patternsDb : List (String × PatternData))
    (action : String)
    (h : assocFind aliases (pyStrip (pyLower action)) = none) :
    find_matching_pattern ratio aliases patternsDb action =
      match specFuzzyChoice ratio (pyStrip (pyLower action)) aliases with
      | none => none
      | some (pname, _) => assocFind patternsDb pname := by
  rcases hspec : specFuzzyChoice ratio (pyStrip (pyLower action)) aliases
    with _ | ⟨pname, s⟩ <;>
    simp only [find_matching_pattern, h,
      fuzzyLoop_eq_specFuzzyChoice ratio (pyStrip (pyLower action)) aliases none 0,
      hspec]
  have hth : (3 : ℚ) / 5 ≤ s :=
    specFuzzyChoice_threshold ratio (pyStrip (pyLower action)) aliases pname s hspec
  rw [if_pos (by linarith)]

/-- Witness for C8 on a one-trigger alias map missing the exact key. -/
theorem C8_witness :
    assocFind [("move forward", "p_move")] (pyStrip (pyLower "Fly")) = none ∧
    find_matching_pattern (fun _ _ => (7 : ℚ) / 10) [("move forward", "p_move")]
        [("p_move", { name := some "move", blocks := [] })] "Fly" =
      match specFuzzyChoice (fun _ _ => (7 : ℚ) / 10) (pyStrip (pyLower "Fly"))
          [("move forward", "p_move")] with
      | none => none
      | some (pname, _) =>
        assocFind [("p_move", { name := some "move", blocks := [] })] pname :=
  ⟨by decide,
    C8_fuzzy_fallback_selection (fun _ _ => (7 : ℚ) / 10) [("move forward", "p_move")]
      [("p_move", { name := some "move", blocks := [] })] "Fly" (by decide)⟩

theorem assocFind_append_of_none {α : Type} (l m : List (String × α)) (k : String)
    (h : assocFind l k = none) : assocFind (l ++ m) k = assocFind m k := by
  induction l with
  | nil => rfl
  | cons p t ih =>
    obtain ⟨k2, v⟩ := p
    simp only [List.cons_append, assocFind] at h ⊢
    by_cases hk : k2 = k
    · rw [if_pos hk] at h
      exact absurd h (by simp)
    · rw [if_neg hk] at h ⊢
      exact ih h

theorem assocFind_filter_ne {α : Type} (l : List (String × α)) (k : String) :
    assocFind (l.filter (fun e => e.1 ≠ k)) k = none := by
  induction l with
  | nil => rfl
  | cons p t ih =>
    by_cases hp : p.1 = k
    · simpa [List.filter, hp] using ih
    · simpa [List.filter, hp, assocFind] using ih

theorem moveToEnd_find (cache : List (String × Program)) (k : String)
    (v : Program) (h : assocFind cache k = some v) :
    assocFind (moveToEnd k cache) k = some v := by
  rw [moveToEnd, h,
    assocFind_append_of_none _ _ _ (assocFind_filter_ne cache k)]
  simp [assocFind]

theorem assocFind_drop_of_none {α : Type} (l : List (String × α)) (k : String)
    (h : assocFind l k = none) : assocFind (l.drop 1) k = none := by
  match l with
  | [] => rfl
  | p :: t =>
    obtain ⟨k2, v⟩ := p
    simp only [assocFind] at h
    by_cases hk : k2 = k
    · rw [if_pos hk] at h
      exact absurd h (by simp)
    · rw [if_neg hk] at h
      exact h

theorem store_cache_find (st : GenState) (d : String) (p : Program)
    (h : assocFind st.cache (cacheKey d) = none) :
    assocFind (store_cache st d p).cache (cacheKey d) = some p := by
  rw [store_cache]
  simp only [assocHas, h, Option.isSome_none, Bool.false_eq_true, if_false]
  by_cases hcap : st.cache_max_size ≤ st.cache.length
  · rw [if_pos hcap,
      assocFind_append_of_none _ _ _ (assocFind_drop_of_none _ _ h)]
    simp [assocFind]
  · rw [if_neg hcap, assocFind_append_of_none _ _ _ h]
    simp [assocFind]

theorem generate_result_cached (env : GenEnv) (st : GenState)
    (attempts : List AttemptOutcome) (intent : ParsedIntent) (d : String)
    (p1 : Program) (st1 : GenState)
    (h1 : generate_snap_json env st attempts intent d = (p1, st1))
    (herr : p1.payload.error = none) :
    assocFind st1.cache (cacheKey d) = some p1 := by
  rcases hcc : assocFind st.cache (cacheKey d) with _ | v
  · simp only [generate_snap_json, check_cache, hcc] at h1
    rcases hfm : find_matching_pattern env.ratio env.aliases env.patternsDb
      intent.action with _ | pattern <;> simp only [hfm] at h1
    · have hp := congrArg Prod.fst h1
      have hst := congrArg Prod.snd h1
      simp only at hp hst
      rw [← hp] at herr
      simp only [herr, errorFalsy, if_true] at hst
      rw [← hst, ← hp]
      exact store_cache_find _ d _ hcc
    · have hp := congrArg Prod.fst h1
      have hst := congrArg Prod.snd h1
      simp only at hp hst
      rw [← hp] at herr
      simp only [herr, errorFalsy, if_true] at hst
      rw [← hst, ← hp]
      exact store_cache_find _ d _ hcc
  · simp only [generate_snap_json, check_cache, hcc] at h1
    have hp := congrArg Prod.fst h1
    have hst := congrArg Prod.snd h1
    simp only at hp hst
    rw [← hst, ← hp]
    exact moveToEnd_find st.cache (cacheKey d) v hcc

/-- Claim C7: if a first run of generate_snap_json returns a program without
an error marker, a second call whose text normalizes (lower-cased,
stripped — the cache key) to the same key returns the identical cached
program, increments the cache-hit metric, and leaves the backend API call
counter untouched (the generative engine is never consulted). -/
theorem C7_cache_idempotence (env : GenEnv) (st : GenState)
    (attempts1 attempts2 : List AttemptOutcome) (intent1 intent2 : ParsedIntent)
    (d1 d2 : String) (p1 : Program) (st1 : GenState)
    (hkey : cacheKey d2 = cacheKey d1)
    (h1 : generate_snap_json env st attempts1 intent1 d1 = (p1, st1))
    (herr : p1.payload.error = none) :
    (generate_snap_json env st1 attempts2 intent2 d2).1 = p1 ∧
    (generate_snap_json env st1 attempts2 intent2 d2).2.cache_hits =
      st1.cache_hits + 1 ∧
    (generate_snap_json env st1 attempts2 intent2 d2).2.api_call_count =
      st1.api_call_count := by
  have hfind : assocFind st1.cache (cacheKey d1) = some p1 :=
    generate_result_cached env st attempts1 intent1 d1 p1 st1 h1 herr
  refine ⟨?_, ?_, ?_⟩ <;>
    simp only [generate_snap_json, check_cache, hkey, hfind]

/-- Witness for C7: a first run on "jump" followed by a second run on
" JUMP " (same normalized key) returns the identical cached program with a
cache hit and no further API calls. -/
theorem C7_witness :
    (cacheKey " JUMP " = cacheKey "jump" ∧
      (generate_snap_json c7Env {} [] c7Intent "jump").1.payload.error = none) ∧
    ((generate_snap_json c7Env
        ((generate_snap_json c7Env {} [] c7Intent "jump").2) [] c7Intent
        " JUMP ").1 =
      (generate_snap_json c7Env {} [] c7Intent "jump").1 ∧
    (generate_snap_json c7Env
        ((generate_snap_json c7Env {} [] c7Intent "jump").2) [] c7Intent
        " JUMP ").2.cache_hits =
      ((generate_snap_json c7Env {} [] c7Intent "jump").2).cache_hits + 1 ∧
    (generate_snap_json c7Env
        ((generate_snap_json c7Env {} [] c7Intent "jump").2) [] c7Intent
        " JUMP ").2.api_call_count =
      ((generate_snap_json c7Env {} [] c7Intent "jump").2).api_call_count) :=
  ⟨⟨by decide, by decide⟩,
    C7_cache_idempotence c7Env {} [] [] c7Intent c7Intent "jump" " JUMP "
      ((generate_snap_json c7Env {} [] c7Intent "jump").1)
      ((generate_snap_json c7Env {} [] c7Intent "jump").2)
      (by decide) rfl (by decide)⟩

end Snap